import Mathlib

/-!
Verification development for the lecture-research agent backend.

The Python backend (`backend/state.py`, `backend/graph.py`, `backend/main.py`,
`backend/nodes/*.py`) is shallowly embedded below:

* pydantic models become Lean structures (wall-clock fields `created_at` /
  `timestamp` and the global execution logger, which never influence control
  flow or the State Record fields under study, are omitted);
* Python `float` is modelled as `Rat` (the code only ever manipulates exact
  decimal literals such as `0.8`, `0.7`, `0.6` and sums of them);
* node handlers become Lean functions; handlers that can raise a Python
  exception past the node boundary return `Except PyErr ResearchState`;
* external collaborators (the OpenAI chat call and Google custom search) are
  oracles passed in as arguments.  An LLM call that a node immediately
  json-parses is modelled at the granularity of its parse outcome:
  `.error ()` stands for content on which `json.loads` raises
  `JSONDecodeError` (this includes the `"Error: ..."` string that
  `call_openai` returns on an API failure), `.ok v` stands for content that
  parses to the JSON value `v`;
* the LangGraph execution engine (`astream` / `interrupt_before` /
  `update_state`) is an external dependency, not part of the repository.
  Modelled from the spec: the Scheduler `run` below follows §4.2 (execute
  pending node, follow unconditional or conditional edge, halt before an
  interrupt-point node unless it is the very first step of the invocation),
  instantiated with the graph built by `create_research_graph`.
-/

set_option maxRecDepth 8000

namespace LecAgent

/-- Model of a Python JSON value (the result of `json.loads`). -/
inductive PyVal where
  | null
  | bool (b : Bool)
  | int (n : Int)
  | float (q : Rat)
  | str (s : String)
  | arr (xs : List PyVal)
  | obj (kvs : List (String × PyVal))
deriving Inhabited

/-- Python exceptions that can escape a node handler. -/
inductive PyErr where
  | keyError (k : String)
  | attributeError (msg : String)
  | typeError (msg : String)
  | validationError (msg : String)
deriving Repr, DecidableEq

/-- Python `d.get(k)` on a dict: first binding for the key, if any. -/
def dictGet (kvs : List (String × PyVal)) (k : String) : Option PyVal :=
  (kvs.find? (fun kv => kv.1 = k)).map (fun kv => kv.2)

/-- Coercion a pydantic v1 `str` field applies to an incoming value
(strings pass through, numbers are stringified, everything else fails). -/
def pyStrCoerce : PyVal → Option String
  | .str t => some t
  | .int n => some (toString n)
  | .float q => some (toString q)
  | _ => none

/-- Coercion a pydantic v1 `float` field applies to an incoming value. -/
def pyRatCoerce : PyVal → Option Rat
  | .int n => some (n : Rat)
  | .float q => some q
  | _ => none

/-- Python truthiness of a JSON value. -/
def pyTruthy : PyVal → Bool
  | .null => false
  | .bool b => b
  | .int n => n != 0
  | .float q => q != 0
  | .str t => t != ""
  | .arr xs => !xs.isEmpty
  | .obj kvs => !kvs.isEmpty

/-- Python `str(v)` on a JSON value (the exact rendering of containers is
immaterial to every property below). -/
def pyToStr : PyVal → String
  | .null => "None"
  | .bool b => if b then "True" else "False"
  | .int n => toString n
  | .float q => toString q
  | .str t => t
  | .arr _ => "[...]"
  | .obj _ => "\x7b...\x7d"

/-- Citation (backend/state.py): a single citation with source information. -/
structure Citation where
  id : Int
  title : String
  url : String
  snippet : String
  relevance_score : Rat := 0
deriving Repr, DecidableEq

/-- ExtractedClaim (backend/state.py): an extracted factual claim. -/
structure ExtractedClaim where
  claim : String
  source : String
  citation_id : Int
  confidence : Rat
  author : Option String := none
  date : Option String := none
deriving Repr, DecidableEq

/-- ResearchPlan (backend/state.py): research action plan generated before
conducting searches.  A research angle is a Python `Dict[str, str]`,
modelled as an association list. -/
structure ResearchPlan where
  search_queries : List String
  research_angles : List (List (String × String))
  topic : String
  revision_count : Nat := 0
  revision_feedback : Option String := none
deriving Repr, DecidableEq

/-- DraftPlan (backend/state.py): initial lecture plan structure. -/
structure DraftPlan where
  introduction : String
  sections : List (List (String × PyVal))
  time_allocation : List (String × Int)
  key_points : List String

/-- HumanFeedback (backend/state.py): feedback from a HITL checkpoint
(`timestamp` omitted: wall clock). -/
structure HumanFeedback where
  checkpoint_type : String
  decision : String
  comments : Option String := none
  emphasis_areas : Option (List String) := none
deriving Repr, DecidableEq

/-- A Google custom-search result as returned by `google_search`
(backend/utils.py): title, link, snippet, source. -/
structure GoogleResult where
  title : String
  link : String
  snippet : String
  source : String
deriving Repr, DecidableEq

/-- A search-result dict after `search_node` added `citation_id` to it. -/
structure SearchResult where
  title : String
  link : String
  snippet : String
  source : String
  citation_id : Int
deriving Repr, DecidableEq

/-- ResearchState (backend/state.py): complete state for the research graph
workflow (`created_at` and `execution_log` omitted: wall clock / global
logger, never read by any node or handler under study). -/
structure ResearchState where
  topic : String
  user_id : String := "default_user"
  research_plan : Option ResearchPlan := none
  human_feedback_research_plan : Option HumanFeedback := none
  plan_approved : Bool := false
  search_queries : List String := []
  search_results : List SearchResult := []
  citations : List Citation := []
  extracted_claims : List ExtractedClaim := []
  prioritized_claims : List ExtractedClaim := []
  draft_plan : Option DraftPlan := none
  human_feedback_plan : Option HumanFeedback := none
  human_feedback_approval : Option HumanFeedback := none
  refined_plan : Option DraftPlan := none
  facts_for_verification : List ExtractedClaim := []
  human_feedback_facts : Option HumanFeedback := none
  final_brief : Option String := none
  formatted_brief : Option String := none
  current_node : String := "input"
  requires_human_input : Bool := false
  checkpoint_id : Option String := none

/-- call_openai (backend/utils.py): the OpenAI wrapper catches every
exception and returns the string `"Error: " ++ e` instead of raising.  The
oracle argument is the outcome of the underlying API call. -/
def call_openai (outcome : Except String String) : String :=
  match outcome with
  | .ok content => content
  | .error e => "Error: " ++ e

/-- input_node (backend/nodes/input_node.py): only sets `current_node`
(logging aside). -/
def input_node (s : ResearchState) : ResearchState :=
  { s with current_node := "input" }

/-- Successfully parsed research-plan LLM output: the values of
`plan_data.get("search_queries", [])` and `plan_data.get("research_angles", [])`. -/
structure PlanParse where
  search_queries : List String
  research_angles : List (List (String × String))
deriving Repr, DecidableEq

/-- Fallback search queries of research_plan_node on a JSON parse failure. -/
def fallbackPlanQueries (topic : String) : List String :=
  [topic ++ " overview", topic ++ " latest research", topic ++ " analysis",
   topic ++ " impact", topic ++ " expert opinions"]

/-- Fallback research angles of research_plan_node on a JSON parse failure. -/
def fallbackPlanAngles : List (List (String × String)) :=
  [[("title", "Background & Context"),
    ("description", "Historical context and foundational concepts")],
   [("title", "Current State"),
    ("description", "Latest developments and current situation")],
   [("title", "Key Players & Actors"),
    ("description", "Main entities involved and their roles")],
   [("title", "Impact & Implications"),
    ("description", "Effects and broader implications")]]

/-- research_plan_node (backend/nodes/research_plan_node.py): generate a
research plan; on revision the count is the previous plan's count plus one,
on a fresh plan it is zero; approval status is reset. -/
def research_plan_node (llm : Except Unit PlanParse) (s : ResearchState) :
    ResearchState :=
  let parsed := match llm with
    | .ok p => (p.search_queries, p.research_angles)
    | .error _ => (fallbackPlanQueries s.topic, fallbackPlanAngles)
  let revision_count : Nat := match s.research_plan with
    | some plan => plan.revision_count + 1
    | none => 0
  let plan : ResearchPlan :=
    { search_queries := parsed.1
      research_angles := parsed.2
      topic := s.topic
      revision_count := revision_count
      revision_feedback := s.human_feedback_research_plan.bind (fun f => f.comments) }
  { s with research_plan := some plan
           current_node := "plan"
           plan_approved := false }

/-- Fallback queries of search_node on a JSON parse failure. -/
def fallbackSearchQueries (topic : String) : List String :=
  [topic, topic ++ " research papers", topic ++ " risks challenges",
   topic ++ " industry applications", topic ++ " expert analysis"]

/-- Inner loop of search_node over the results of one query: each result
becomes a citation with the current counter value and the counter is
incremented. -/
def citeResults : List GoogleResult → Int →
    List Citation × List SearchResult × Int
  | [], cid => ([], [], cid)
  | r :: rs, cid =>
      let rest := citeResults rs (cid + 1)
      ({ id := cid, title := r.title, url := r.link, snippet := r.snippet,
         relevance_score := 0.8 } :: rest.1,
       { title := r.title, link := r.link, snippet := r.snippet,
         source := r.source, citation_id := cid } :: rest.2.1,
       rest.2.2)

/-- Outer loop of search_node over the (at most five) queries. -/
def searchAll (google : String → List GoogleResult) :
    List String → Int → List Citation × List SearchResult × Int
  | [], cid => ([], [], cid)
  | q :: qs, cid =>
      let this := citeResults (google q) cid
      let rest := searchAll google qs this.2.2
      (this.1 ++ rest.1, this.2.1 ++ rest.2.1, rest.2.2)

/-- search_node (backend/nodes/search_node.py): generate queries (falling
back to topic-based queries on a parse failure), run the first five through
Google search, number the results with a citation counter starting at 1,
append the citations and replace the search results. -/
def search_node (llm : Except Unit (List String))
    (google : String → List GoogleResult) (s : ResearchState) : ResearchState :=
  let search_queries := match llm with
    | .ok qs => qs
    | .error _ => fallbackSearchQueries s.topic
  let gathered := searchAll google (search_queries.take 5) 1
  { s with search_queries := search_queries
           citations := s.citations ++ gathered.1
           search_results := gathered.2.1
           current_node := "search" }

/-- Resolution of the `citation_id` of one `claim_data` entry in
extract_node (backend/nodes/extract_node.py lines 55-57): the value from
the entry when it is one of the valid ids, the default id otherwise
(a JSON float equal to an integer id also passes Python's `in` check). -/
def resolveCitationId (validIds : List Int) (defaultId : Int)
    (kvs : List (String × PyVal)) : Int :=
  match dictGet kvs "citation_id" with
  | some (.int n) => if n ∈ validIds then n else defaultId
  | some (.float q) => if q.den = 1 ∧ q.num ∈ validIds then q.num else defaultId
  | some _ => defaultId
  | none => defaultId

/-- Validation of the remaining fields of one `claim_data` entry
(backend/nodes/extract_node.py lines 59-66): `claim` and `source` are
mandatory keys (`KeyError` when absent); `confidence` defaults to `0.7`;
`author` and `date` are optional. -/
def claimFields (kvs : List (String × PyVal)) :
    Except PyErr (String × String × Rat × Option String × Option String) := do
  let claimTxt ← match dictGet kvs "claim" with
    | none => .error (.keyError "claim")
    | some v => match pyStrCoerce v with
      | some t => .ok t
      | none => .error (.validationError "claim")
  let sourceTxt ← match dictGet kvs "source" with
    | none => .error (.keyError "source")
    | some v => match pyStrCoerce v with
      | some t => .ok t
      | none => .error (.validationError "source")
  let conf ← match dictGet kvs "confidence" with
    | none => .ok (0.7 : Rat)
    | some v => match pyRatCoerce v with
      | some q => .ok q
      | none => .error (.validationError "confidence")
  let author ← match dictGet kvs "author" with
    | none => .ok (none : Option String)
    | some .null => .ok none
    | some v => match pyStrCoerce v with
      | some t => .ok (some t)
      | none => .error (.validationError "author")
  let date ← match dictGet kvs "date" with
    | none => .ok (none : Option String)
    | some .null => .ok none
    | some v => match pyStrCoerce v with
      | some t => .ok (some t)
      | none => .error (.validationError "date")
  .ok (claimTxt, sourceTxt, conf, author, date)

/-- Validation of one `claim_data` entry in extract_node
(backend/nodes/extract_node.py lines 53-66): the entry must be a dict (a
non-dict raises `AttributeError` on `.get`); the citation id is resolved
against the valid ids first, then the remaining fields are read. -/
def parseClaimItem (validIds : List Int) (defaultId : Int) :
    PyVal → Except PyErr ExtractedClaim
  | .obj kvs =>
      let cid := resolveCitationId validIds defaultId kvs
      (claimFields kvs).map (fun f =>
        { claim := f.1, source := f.2.1, citation_id := cid,
          confidence := f.2.2.1, author := f.2.2.2.1, date := f.2.2.2.2 })
  | _ => .error (.attributeError "claim_data has no attribute get")

/-- Fallback claims extract_node builds from search snippets when the LLM
response fails to json-parse. -/
def fallbackClaims (s : ResearchState) : List ExtractedClaim :=
  (s.search_results.take 8).map (fun r =>
    { claim := r.snippet, source := r.title, citation_id := r.citation_id,
      confidence := 0.6 })

/-- extract_node (backend/nodes/extract_node.py): on a JSON parse failure,
fall back to claims built from the first eight snippets; otherwise validate
each entry against the citation ids of the current search results, with the
first result's citation id (or 1 when there are no results) as the default.
Only `json.JSONDecodeError` is caught, so a malformed entry (e.g. a missing
`claim` key) raises past the node boundary. -/
def extract_node (llm : Except Unit PyVal) (s : ResearchState) :
    Except PyErr ResearchState :=
  match llm with
  | .error _ =>
      .ok { s with extracted_claims := s.extracted_claims ++ fallbackClaims s
                   current_node := "extract" }
  | .ok j =>
      match j with
      | .arr items =>
          let validIds := s.search_results.map (fun r => r.citation_id)
          let defaultId : Int := match s.search_results with
            | r :: _ => r.citation_id
            | [] => 1
          (items.mapM (parseClaimItem validIds defaultId)).map (fun claims =>
            { s with extracted_claims := s.extracted_claims ++ claims
                     current_node := "extract" })
      | _ => .error (.typeError "claims_data entries are not dicts")

/-- Scoring heuristic of author_prioritization_node
(backend/nodes/author_prioritization_node.py lines 27-54). -/
def claimScore (c : ExtractedClaim) : Rat :=
  let base := c.confidence * 40
  let authorBonus : Rat := if c.author.isSome then 20 else 0
  let dateBonus : Rat := match c.date with
    | some d =>
        if "2024".toList.IsInfix d.toList ∨ "2025".toList.IsInfix d.toList then 15
        else if "2023".toList.IsInfix d.toList ∨ "2022".toList.IsInfix d.toList then 10
        else 0
    | none => 0
  let lengthBonus : Rat := if c.claim.length > 100 then 10 else 0
  let digitBonus : Rat := if c.claim.any Char.isDigit then 15 else 0
  base + authorBonus + dateBonus + lengthBonus + digitBonus

/-- author_prioritization_node (backend/nodes/author_prioritization_node.py):
score the extracted claims, sort descending by score (Python's stable sort
with `reverse=True`), keep the top 12 as prioritized claims and the top 6 as
facts for verification.  The HITL flags are deliberately not touched here. -/
def author_prioritization_node (s : ResearchState) : ResearchState :=
  let scored := s.extracted_claims.map (fun c => (claimScore c, c))
  let sorted := scored.mergeSort (fun a b => b.1 ≤ a.1)
  { s with prioritized_claims := (sorted.take 12).map (fun x => x.2)
           facts_for_verification := (sorted.take 6).map (fun x => x.2)
           current_node := "author_prioritization" }

/-- Validation synthesis_node applies to a parsed plan object
(backend/nodes/synthesis_node.py lines 59-87): `introduction` is stringified
or defaulted, `sections` and `key_points` default to `[]` when not lists,
`time_allocation` defaults to the literal dict when not a dict; the
pydantic `DraftPlan` constructor then requires each section to be a dict,
each time allocation to be an integer and each key point to be a string. -/
def synthValidate (kvs : List (String × PyVal)) : Except PyErr DraftPlan := do
  let introduction : String := match dictGet kvs "introduction" with
    | some (.str t) => t
    | some v => if pyTruthy v then pyToStr v else "Introduction to the topic"
    | none => "Introduction to the topic"
  let sectionsRaw : List PyVal := match dictGet kvs "sections" with
    | some (.arr xs) => xs
    | _ => []
  let sections ← sectionsRaw.mapM (fun v => match v with
    | .obj skvs => Except.ok skvs
    | _ => .error (.validationError "sections"))
  let timeRaw : List (String × PyVal) := match dictGet kvs "time_allocation" with
    | some (.obj t) => t
    | _ => [("introduction", .int 10), ("main_content", .int 50),
            ("applications", .int 10), ("risks", .int 10), ("qa", .int 10)]
  let time_allocation ← timeRaw.mapM (fun kv => match kv.2 with
    | .int n => Except.ok (kv.1, n)
    | .float q => if q.den = 1 then Except.ok (kv.1, q.num)
                  else .error (.validationError "time_allocation")
    | _ => .error (.validationError "time_allocation"))
  let keyRaw : List PyVal := match dictGet kvs "key_points" with
    | some (.arr xs) => xs
    | _ => []
  let key_points ← keyRaw.mapM (fun v => match pyStrCoerce v with
    | some t => Except.ok t
    | none => .error (.validationError "key_points"))
  .ok { introduction := introduction, sections := sections,
        time_allocation := time_allocation, key_points := key_points }

/-- Fallback draft plan synthesis_node builds when the LLM response fails to
json-parse (backend/nodes/synthesis_node.py lines 92-123). -/
def synthFallbackPlan (s : ResearchState) : DraftPlan :=
  { introduction := "Introduction to " ++ s.topic
    sections :=
      [[("title", .str "Core Concepts"), ("time_minutes", .int 20),
        ("key_points", .arr ((s.prioritized_claims.take 3).map (fun c => .str c.claim))),
        ("supporting_claims", .arr [.int 0, .int 1, .int 2])],
       [("title", .str "Applications and Implications"), ("time_minutes", .int 20),
        ("key_points", .arr (((s.prioritized_claims.drop 3).take 3).map (fun c => .str c.claim))),
        ("supporting_claims", .arr [.int 3, .int 4, .int 5])],
       [("title", .str "Risks and Challenges"), ("time_minutes", .int 15),
        ("key_points", .arr (((s.prioritized_claims.drop 6).take 3).map (fun c => .str c.claim))),
        ("supporting_claims", .arr [.int 6, .int 7, .int 8])]]
    time_allocation := [("introduction", 10), ("main_content", 55),
                        ("applications", 0), ("risks", 0), ("qa", 15)]
    key_points := (s.prioritized_claims.take 5).map (fun c => c.claim.take 100) }

/-- synthesis_node (backend/nodes/synthesis_node.py): build the draft plan
from the LLM response (with the fallback plan on a parse failure), then mark
that human input is required with checkpoint id `plan_review`.  A response
that parses to a non-dict raises `AttributeError` past the node boundary. -/
def synthesis_node (llm : Except Unit PyVal) (s : ResearchState) :
    Except PyErr ResearchState :=
  let finish : DraftPlan → ResearchState := fun dp =>
    { s with draft_plan := some dp
             requires_human_input := true
             checkpoint_id := some "plan_review"
             current_node := "synthesis" }
  match llm with
  | .error _ => .ok (finish (synthFallbackPlan s))
  | .ok (.obj kvs) => (synthValidate kvs).map finish
  | .ok _ => .error (.attributeError "plan_data has no attribute get")

/-- Parse of the refined plan in refinement_node (backend/nodes/
refinement_node.py lines 63-68 and 109-114): all four keys are accessed with
subscript, so a missing key raises `KeyError`; the pydantic constructor then
validates as in `synthValidate`. -/
def refineParsePlan (kvs : List (String × PyVal)) : Except PyErr DraftPlan := do
  let introduction ← match dictGet kvs "introduction" with
    | none => .error (.keyError "introduction")
    | some v => match pyStrCoerce v with
      | some t => Except.ok t
      | none => .error (.validationError "introduction")
  let sectionsRaw ← match dictGet kvs "sections" with
    | none => .error (.keyError "sections")
    | some (.arr xs) => Except.ok xs
    | some _ => .error (.validationError "sections")
  let sections ← sectionsRaw.mapM (fun v => match v with
    | .obj skvs => Except.ok skvs
    | _ => .error (.validationError "sections"))
  let timeRaw ← match dictGet kvs "time_allocation" with
    | none => .error (.keyError "time_allocation")
    | some (.obj t) => Except.ok t
    | some _ => .error (.validationError "time_allocation")
  let time_allocation ← timeRaw.mapM (fun kv => match kv.2 with
    | .int n => Except.ok (kv.1, n)
    | .float q => if q.den = 1 then Except.ok (kv.1, q.num)
                  else .error (.validationError "time_allocation")
    | _ => .error (.validationError "time_allocation"))
  let keyRaw ← match dictGet kvs "key_points" with
    | none => .error (.keyError "key_points")
    | some (.arr xs) => Except.ok xs
    | some _ => .error (.validationError "key_points")
  let key_points ← keyRaw.mapM (fun v => match pyStrCoerce v with
    | some t => Except.ok t
    | none => .error (.validationError "key_points"))
  .ok { introduction := introduction, sections := sections,
        time_allocation := time_allocation, key_points := key_points }

/-- refinement_node (backend/nodes/refinement_node.py): with no feedback the
draft plan is taken as-is and both HITL flags are cleared; on `approve`
likewise; on `rework` or `emphasize_topic` the prompt is built from
`draft_plan.dict()` (raising `AttributeError` when the draft plan is `None`),
the refined plan re-raises the review flags on a successful parse and clears
them on a parse failure; any other decision takes no branch.  The final log
call reads `len(state.refined_plan.sections)`, which raises
`AttributeError` when `refined_plan` is still `None`. -/
def refinement_node (llm : Except Unit PyVal) (s : ResearchState) :
    Except PyErr ResearchState :=
  match s.human_feedback_plan with
  | none =>
      .ok { s with refined_plan := s.draft_plan
                   current_node := "refinement"
                   requires_human_input := false
                   checkpoint_id := none }
  | some fb =>
      if fb.decision = "approve" then
        match s.draft_plan with
        | none => .error (.attributeError "refined_plan is None")
        | some dp =>
            .ok { s with refined_plan := some dp
                         requires_human_input := false
                         checkpoint_id := none
                         current_node := "refinement" }
      else if fb.decision = "rework" ∨ fb.decision = "emphasize_topic" then
        match s.draft_plan with
        | none => .error (.attributeError "draft_plan is None")
        | some dp =>
          match llm with
          | .error _ =>
              .ok { s with refined_plan := some dp
                           requires_human_input := false
                           checkpoint_id := none
                           current_node := "refinement" }
          | .ok (.obj kvs) =>
              (refineParsePlan kvs).map (fun plan =>
                { s with refined_plan := some plan
                         requires_human_input := true
                         checkpoint_id := some "plan_review"
                         draft_plan := some plan
                         current_node := "refinement" })
          | .ok _ => .error (.typeError "plan_data is not subscriptable")
      else
        match s.refined_plan with
        | none => .error (.attributeError "refined_plan is None")
        | some _ => .ok { s with current_node := "refinement" }

/-- brief_node (backend/nodes/brief_node.py): store the raw LLM response as
the final brief and clear `requires_human_input`. -/
def brief_node (llmText : String) (s : ResearchState) : ResearchState :=
  { s with final_brief := some llmText
           current_node := "brief"
           requires_human_input := false }

/-- Metadata header formatting_node prepends (timestamp and logger session
id come from the environment). -/
def formatMetadata (generatedAt sessionId topic : String) : String :=
  "<!-- \nGenerated: " ++ generatedAt ++ "\nTopic: " ++ topic ++
  "\nSession: " ++ sessionId ++ "\n-->\n\n"

/-- formatting_node (backend/nodes/formatting_node.py): prepend the metadata
header to the final brief (string concatenation with `None` raises
`TypeError` when no brief was generated) and store the result. -/
def formatting_node (generatedAt sessionId : String) (s : ResearchState) :
    Except PyErr ResearchState :=
  match s.final_brief with
  | none => .error (.typeError "final_brief is None")
  | some b =>
      .ok { s with formatted_brief := some (formatMetadata generatedAt sessionId s.topic ++ b)
                   current_node := "formatting" }

/-- Nodes of the research graph (backend/graph.py lines 60-68). -/
inductive GraphNode where
  | input
  | plan
  | search
  | extract
  | prioritize
  | synthesize
  | refine
  | brief
  | format
deriving Repr, DecidableEq

/-- Interrupt points of the compiled graph (backend/graph.py line 112):
pause before `search`, `synthesize` and `refine`. -/
def interruptBefore : List GraphNode := [.search, .synthesize, .refine]

/-- should_wait_for_fact_verification (backend/graph.py lines 40-44): the
conditional edge out of `refine`. -/
def should_wait_for_fact_verification (s : ResearchState) : String :=
  if s.requires_human_input = true ∧ s.checkpoint_id = some "fact_verification"
  then "wait" else "brief"

/-- Edges of the research graph (backend/graph.py lines 73-104): all
unconditional except the conditional edge out of `refine`, which loops back
to `refine` on `"wait"` and continues to `brief` otherwise; `format` goes to
END (`none`). -/
def successor (n : GraphNode) (s : ResearchState) : Option GraphNode :=
  match n with
  | .input => some .plan
  | .plan => some .search
  | .search => some .extract
  | .extract => some .prioritize
  | .prioritize => some .synthesize
  | .synthesize => some .refine
  | .refine => if should_wait_for_fact_verification s = "wait"
               then some .refine else some .brief
  | .brief => some .format
  | .format => none

/-- Collaborator outcomes for one node invocation: the parse outcome of each
LLM call, the Google results per query, the raw brief text and the metadata
inputs of the formatting node. -/
structure NodeOracle where
  planLLM : Except Unit PlanParse
  searchLLM : Except Unit (List String)
  google : String → List GoogleResult
  extractLLM : Except Unit PyVal
  synthLLM : Except Unit PyVal
  refineLLM : Except Unit PyVal
  briefLLM : String
  fmtTimestamp : String
  fmtSession : String

/-- Dispatch of the node handlers registered by create_research_graph
(backend/graph.py lines 60-68). -/
def runNode (o : NodeOracle) : GraphNode → ResearchState → Except PyErr ResearchState
  | .input, s => .ok (input_node s)
  | .plan, s => .ok (research_plan_node o.planLLM s)
  | .search, s => .ok (search_node o.searchLLM o.google s)
  | .extract, s => extract_node o.extractLLM s
  | .prioritize, s => .ok (author_prioritization_node s)
  | .synthesize, s => synthesis_node o.synthLLM s
  | .refine, s => refinement_node o.refineLLM s
  | .brief, s => .ok (brief_node o.briefLLM s)
  | .format, s => formatting_node o.fmtTimestamp o.fmtSession s

/-- Checkpoint of one session: the pending node (END when `none`) and the
checkpointed State Record. -/
structure Checkpoint where
  pending : Option GraphNode
  state : ResearchState

/-- Outcome of one Scheduler invocation. -/
inductive RunStatus where
  | terminal
  | pausedAt (n : GraphNode)
  | errored (e : PyErr)
  | outOfFuel
deriving Repr, DecidableEq

/-- Result of one Scheduler invocation: the executed nodes in order, the
final checkpoint and the halt reason. -/
structure RunResult where
  visited : List GraphNode
  final : Checkpoint
  status : RunStatus

/-- Modelled from the spec: the LangGraph engine driving `astream` is an
external dependency, so the Scheduler follows §4.2 — take the pending node,
stop at END, stop before an interrupt point unless this is the very first
step of the invocation, otherwise run the handler (an exception halts the
run with the failed node still pending) and follow the edge evaluated
against the updated state.  Every handler invocation consumes the next
oracle from `env`.  Fuel only bounds the recursion: every reachable run
pauses or terminates within the bound proved below. -/
def runFuel (env : Nat → NodeOracle) : Nat → Nat → Bool → Checkpoint → RunResult
  | 0, _, _, c => ⟨[], c, .outOfFuel⟩
  | fuel + 1, i, first, c =>
    match c.pending with
    | none => ⟨[], c, .terminal⟩
    | some n =>
      if n ∈ interruptBefore ∧ first = false then ⟨[], c, .pausedAt n⟩
      else
        match runNode (env i) n c.state with
        | .error e => ⟨[n], ⟨some n, c.state⟩, .errored e⟩
        | .ok s2 =>
            let rest := runFuel env fuel (i + 1) false ⟨successor n s2, s2⟩
            ⟨n :: rest.visited, rest.final, rest.status⟩

/-- Fuel bound for one Scheduler invocation; any run segment executes at
most four nodes before pausing or terminating. -/
def schedFuel : Nat := 12

/-- One Scheduler invocation (`astream` until the next interrupt, error or
END): the pending node executes even when it is an interrupt point, because
the pause-before rule does not apply to the first step of an invocation. -/
def runSched (env : Nat → NodeOracle) (i : Nat) (c : Checkpoint) : RunResult :=
  runFuel env schedFuel i true c

/-- HumanFeedback value built by the feedback endpoint
(backend/main.py lines 795-800). -/
def mkFeedback (ctype decision : String) (comments : Option String)
    (emphasis : Option (List String)) : HumanFeedback :=
  { checkpoint_type := ctype, decision := decision, comments := comments,
    emphasis_areas := emphasis }

/-- Plan-approval loop of the websocket driver (backend/main.py lines
271-371), with the feedback decisions supplied as a list of
(decision, comments) pairs: on `"approve"` the feedback and
`plan_approved := true` are written as the output of node `plan`, leaving
`search` pending; on any other decision the feedback and
`plan_approved := false` are written as the output of node `input` and the
graph is re-streamed, re-running `plan` and pausing before `search` again.
Returned are the nodes executed inside the loop, the next oracle index and
the checkpoint the loop leaves behind. -/
def planApprovalLoop (env : Nat → NodeOracle) :
    List (String × Option String) → Nat → Checkpoint →
    List GraphNode × Nat × Checkpoint
  | [], i, c => ([], i, c)
  | (decision, comments) :: rest, i, c =>
      let fb := mkFeedback "research_plan" decision comments none
      if decision = "approve" then
        let s2 := { c.state with human_feedback_research_plan := some fb,
                                 plan_approved := true }
        ([], i, ⟨successor .plan s2, s2⟩)
      else
        let s2 := { c.state with human_feedback_research_plan := some fb,
                                 plan_approved := false }
        let r := runSched env i ⟨successor .input s2, s2⟩
        let cont := planApprovalLoop env rest (i + r.visited.length) r.final
        (r.visited ++ cont.1, cont.2.1, cont.2.2)

/-- Revision-loop driver of the websocket endpoint, from session start
through the plan-approval interrupt to the resume that runs `search`
(backend/main.py lines 214-394): the initial stream runs `input` and `plan`
and pauses before `search`; the plan-approval loop consumes the feedback
decisions; after approval the graph is re-streamed from `search` until the
next interrupt.  Returned are all executed nodes in order and the final
checkpoint. -/
def driveRevisionCycle (env : Nat → NodeOracle) (topic user : String)
    (decisions : List (String × Option String)) :
    List GraphNode × Checkpoint :=
  let s0 : ResearchState := { topic := topic, user_id := user }
  let r0 := runSched env 0 ⟨some .input, s0⟩
  let looped := planApprovalLoop env decisions r0.visited.length r0.final
  let r1 := runSched env looped.2.1 looped.2.2
  (r0.visited ++ looped.1 ++ r1.visited, r1.final)

/-- Server-side execution context of one session
(backend/main.py lines 119-121 and 162-167). -/
structure ExecContext where
  state : ResearchState
  status : String

/-- Session store `execution_states`: a dict keyed by session id. -/
def SessionStore : Type := String → Option ExecContext

/-- Body of POST /research/feedback (backend/main.py lines 129-134). -/
structure FeedbackRequest where
  session_id : String
  checkpoint_type : String
  decision : String
  comments : Option String := none
  emphasis_areas : Option (List String) := none

/-- Acknowledgement returned by the feedback endpoint
(backend/main.py lines 828-833). -/
structure FeedbackAck where
  status : String
  session_id : String
  checkpoint : String
  decision : String
deriving Repr, DecidableEq

/-- HTTP error responses raised by the endpoints. -/
inductive HttpError where
  | notFound (detail : String)
deriving Repr, DecidableEq

/-- State/status mutation of the feedback endpoint
(backend/main.py lines 805-826): each of the four recognized checkpoint
types stores the feedback in its slot, clears `requires_human_input` and
flips the status to `processing`; any other checkpoint type falls through
every branch and changes nothing. -/
def applyFeedback (req : FeedbackRequest) (ctx : ExecContext) : ExecContext :=
  let fb := mkFeedback req.checkpoint_type req.decision req.comments
    req.emphasis_areas
  let st := ctx.state
  if req.checkpoint_type = "research_plan" then
    { state := { st with human_feedback_research_plan := some fb
                         requires_human_input := false }
      status := "processing" }
  else if req.checkpoint_type = "plan_review" then
    { state := { st with human_feedback_plan := some fb
                         requires_human_input := false }
      status := "processing" }
  else if req.checkpoint_type = "plan_approval" then
    { state := { st with human_feedback_approval := some fb
                         requires_human_input := false }
      status := "processing" }
  else if req.checkpoint_type = "fact_verification" then
    { state := { st with human_feedback_facts := some fb
                         requires_human_input := false }
      status := "processing" }
  else ctx

/-- submit_feedback, POST /research/feedback (backend/main.py lines
783-833): 404 for an unknown session; otherwise the feedback is applied to
the stored context unconditionally — there is no check that the session is
suspended, or suspended at the targeted checkpoint — and a
`feedback_received` acknowledgement echoing the decision is returned. -/
def submit_feedback (store : SessionStore) (req : FeedbackRequest) :
    Except HttpError (SessionStore × FeedbackAck) :=
  match store req.session_id with
  | none => .error (.notFound "Session not found")
  | some ctx =>
      let ctx2 := applyFeedback req ctx
      .ok (fun sid => if sid = req.session_id then some ctx2 else store sid,
           { status := "feedback_received", session_id := req.session_id,
             checkpoint := req.checkpoint_type, decision := req.decision })

/-- Response of GET /research/status (backend/main.py lines 845-851);
the `checkpoint` field is omitted (it is always `None` in the stored
contexts under study). -/
structure StatusResponse where
  session_id : String
  status : String
  current_node : String
  topic : String
deriving Repr, DecidableEq

/-- get_status, GET /research/status/[session_id] (backend/main.py lines
836-851): 404 for an unknown session, otherwise a snapshot of the stored
status and state. -/
def get_status (store : SessionStore) (sid : String) :
    Except HttpError StatusResponse :=
  match store sid with
  | none => .error (.notFound "Session not found")
  | some ctx =>
      .ok { session_id := sid, status := ctx.status,
            current_node := ctx.state.current_node, topic := ctx.state.topic }

/-- Polling loop the websocket driver runs while suspended
(backend/main.py lines 300-306): the timeout counter increments each tick
while the stored status still equals the waiting status and the counter is
below 600.  `statusAt t` is the stored status at tick `t` (feedback arriving
out of band flips it to `processing`). -/
def waitLoopCounter (statusAt : Nat → String) (waiting : String) :
    Nat → Nat → Nat
  | 0, t => t
  | f + 1, t =>
      if statusAt t = waiting ∧ t < 600 then waitLoopCounter statusAt waiting f (t + 1)
      else t

/-- Outcome of one suspended wait at a HITL checkpoint. -/
structure HitlWaitResult where
  errorEvents : Nat
  resumed : Bool
  finalStatus : String
deriving Repr, DecidableEq

/-- Suspend/await step of the websocket driver at a checkpoint
(backend/main.py lines 299-311): poll until feedback or 600 ticks; on
timeout exactly one error event is sent to the channel and the handler
returns — the stored status is left as it was, no resume is attempted; when
feedback arrived the driver goes on to resume (no error event). -/
def hitlWait (statusAt : Nat → String) (waiting : String) : HitlWaitResult :=
  let t := waitLoopCounter statusAt waiting 601 0
  if t ≥ 600 then
    { errorEvents := 1, resumed := false, finalStatus := statusAt t }
  else
    { errorEvents := 0, resumed := true, finalStatus := statusAt t }

/-! Helper predicates and shape lemmas. -/

/-- Lift of a predicate to the success branch of a handler result. -/
def ExceptOkP (r : Except PyErr ResearchState) (P : ResearchState → Prop) : Prop :=
  match r with
  | .ok s => P s
  | .error _ => True

theorem exceptOkP_of_eq {r : Except PyErr ResearchState}
    {P : ResearchState → Prop} (h : ∀ s2, r = .ok s2 → P s2) : ExceptOkP r P := by
  cases r with
  | ok s => exact h s rfl
  | error e => trivial

/-- Success results of extract_node only append extracted claims and set the
current node. -/
theorem extract_node_ok_shape {llm : Except Unit PyVal} {s s2 : ResearchState}
    (h : extract_node llm s = .ok s2) :
    ∃ L, s2 = { s with extracted_claims := s.extracted_claims ++ L,
                       current_node := "extract" } := by
  unfold extract_node at h
  split at h
  · exact ⟨fallbackClaims s, by cases h; rfl⟩
  · split at h
    · rename_i items
      simp only [] at h
      rcases hm : items.mapM (parseClaimItem (s.search_results.map (fun r => r.citation_id))
        (match s.search_results with | r :: _ => r.citation_id | [] => 1)) with e | claims
      · rw [hm] at h; simp [Except.map] at h
      · rw [hm] at h
        simp only [Except.map, Except.ok.injEq] at h
        exact ⟨claims, h.symm⟩
    · simp at h

/-- Success results of synthesis_node only set the draft plan, the HITL
flags and the current node. -/
theorem synthesis_node_ok_shape {llm : Except Unit PyVal} {s s2 : ResearchState}
    (h : synthesis_node llm s = .ok s2) :
    ∃ dp, s2 = { s with draft_plan := some dp,
                        requires_human_input := true,
                        checkpoint_id := some "plan_review",
                        current_node := "synthesis" } := by
  unfold synthesis_node at h
  split at h
  · exact ⟨synthFallbackPlan s, by cases h; rfl⟩
  · rename_i kvs
    rcases hv : synthValidate kvs with e | dp
    · rw [hv] at h; simp [Except.map] at h
    · rw [hv] at h
      simp only [Except.map, Except.ok.injEq] at h
      exact ⟨dp, h.symm⟩
  · simp at h

/-- Success results of refinement_node only set the refined (and possibly
draft) plan, the HITL flags and the current node. -/
theorem refinement_node_ok_shape {llm : Except Unit PyVal} {s s2 : ResearchState}
    (h : refinement_node llm s = .ok s2) :
    ∃ rp dp rhi cid,
      s2 = { s with refined_plan := rp, draft_plan := dp,
                    requires_human_input := rhi, checkpoint_id := cid,
                    current_node := "refinement" } := by
  unfold refinement_node at h
  split at h
  · exact ⟨s.draft_plan, s.draft_plan, false, none, by cases h; rfl⟩
  · split at h
    · split at h
      · simp at h
      · rename_i dp heq
        exact ⟨some dp, some dp, false, none, by cases h; simp [heq]⟩
    · split at h
      · split at h
        · simp at h
        · rename_i dp heq
          split at h
          · exact ⟨some dp, some dp, false, none, by cases h; simp [heq]⟩
          · rename_i kvs
            rcases hp : refineParsePlan kvs with e | plan
            · rw [hp] at h; simp [Except.map] at h
            · rw [hp] at h
              simp only [Except.map, Except.ok.injEq] at h
              exact ⟨some plan, some plan, true, some "plan_review", h.symm⟩
          · simp at h
      · split at h
        · simp at h
        · rename_i rp heq
          exact ⟨some rp, s.draft_plan, s.requires_human_input, s.checkpoint_id,
            by cases h; simp [heq]⟩

/-- Success results of formatting_node only set the formatted brief and the
current node. -/
theorem formatting_node_ok_shape {ts sid : String} {s s2 : ResearchState}
    (h : formatting_node ts sid s = .ok s2) :
    ∃ b, s2 = { s with formatted_brief := some b,
                       current_node := "formatting" } := by
  unfold formatting_node at h
  rcases hb : s.final_brief with _ | b
  · rw [hb] at h; simp at h
  · rw [hb] at h
    exact ⟨formatMetadata ts sid s.topic ++ b, by cases h; rfl⟩

/-- Identity fields of the State Record are unchanged. -/
def PreservesIdentity (s s2 : ResearchState) : Prop :=
  s2.topic = s.topic ∧ s2.user_id = s.user_id

/-- C9: for every node handler of the research graph and every input State
Record, the identity fields `topic` and `user_id` of the returned State
Record (when the handler returns one rather than raising) equal those of
the input State Record. -/
theorem c9_identity_frame (o : NodeOracle) (s : ResearchState) (n : GraphNode) :
    ExceptOkP (runNode o n s) (PreservesIdentity s) := by
  cases n with
  | input => exact ⟨rfl, rfl⟩
  | plan => exact ⟨rfl, rfl⟩
  | search => exact ⟨rfl, rfl⟩
  | extract =>
      refine exceptOkP_of_eq (fun s2 h => ?_)
      obtain ⟨L, hL⟩ := extract_node_ok_shape h
      subst hL; exact ⟨rfl, rfl⟩
  | prioritize => exact ⟨rfl, rfl⟩
  | synthesize =>
      refine exceptOkP_of_eq (fun s2 h => ?_)
      obtain ⟨dp, hdp⟩ := synthesis_node_ok_shape h
      subst hdp; exact ⟨rfl, rfl⟩
  | refine =>
      refine exceptOkP_of_eq (fun s2 h => ?_)
      obtain ⟨rp, dp, rhi, cid, hs⟩ := refinement_node_ok_shape h
      subst hs; exact ⟨rfl, rfl⟩
  | brief => exact ⟨rfl, rfl⟩
  | format =>
      refine exceptOkP_of_eq (fun s2 h => ?_)
      obtain ⟨b, hb⟩ := formatting_node_ok_shape h
      subst hb; exact ⟨rfl, rfl⟩

/-! Session-layer claims: feedback submission, status, timeout. -/

/-- State of a freshly created example session. -/
def sampleState : ResearchState := { topic := "graph databases", user_id := "u1" }

/-- Example store holding one session suspended at the research-plan
checkpoint. -/
def sampleStore : SessionStore :=
  fun sid => if sid = "s1" then some ⟨sampleState, "waiting_research_plan"⟩ else none

/-- C10: for every existing session, a feedback submission whose
checkpoint_type is outside the four recognized values leaves the stored
execution context (State Record, feedback slots and status) unchanged, yet
still returns the `feedback_received` acknowledgement echoing the submitted
decision. -/
theorem c10_unrecognized_checkpoint_type (store : SessionStore)
    (req : FeedbackRequest) :
    match store req.session_id with
    | none => True
    | some ctx =>
        req.checkpoint_type ≠ "research_plan" →
        req.checkpoint_type ≠ "plan_review" →
        req.checkpoint_type ≠ "plan_approval" →
        req.checkpoint_type ≠ "fact_verification" →
        match submit_feedback store req with
        | .error _ => False
        | .ok result =>
            result.1 req.session_id = some ctx ∧
            result.2 = ⟨"feedback_received", req.session_id,
                        req.checkpoint_type, req.decision⟩ := by
  cases hctx : store req.session_id with
  | none => trivial
  | some ctx =>
      intro h1 h2 h3 h4
      unfold submit_feedback
      rw [hctx]
      simp only [applyFeedback, if_neg h1, if_neg h2, if_neg h3, if_neg h4]
      exact ⟨by simp, by simp⟩

/-- Witness for C10: a request with checkpoint type `bogus_checkpoint`
against the sample session is acknowledged while the context is unchanged. -/
theorem c10_unrecognized_checkpoint_type_witness :
    match submit_feedback sampleStore
        { session_id := "s1", checkpoint_type := "bogus_checkpoint",
          decision := "approve" } with
    | .error _ => False
    | .ok result =>
        result.1 "s1" = some ⟨sampleState, "waiting_research_plan"⟩ ∧
        result.2 = ⟨"feedback_received", "s1", "bogus_checkpoint", "approve"⟩ := by
  exact c10_unrecognized_checkpoint_type sampleStore
    { session_id := "s1", checkpoint_type := "bogus_checkpoint",
      decision := "approve" }
    (by decide) (by decide) (by decide) (by decide)

/-- Counterexample to C4: the sample session is `completed`, so it is not
suspended at any checkpoint, yet feedback for `research_plan` is accepted —
the acknowledgement is returned, the status flips to `processing` and the
feedback slot is written, rather than the call being rejected with the
session unchanged. -/
theorem c4_counterexample :
    match submit_feedback
        (fun sid => if sid = "s9" then some ⟨sampleState, "completed"⟩ else none)
        { session_id := "s9", checkpoint_type := "research_plan",
          decision := "approve" } with
    | .error _ => False
    | .ok result =>
        result.2.status = "feedback_received" ∧
        (result.1 "s9").map (fun c => c.status) = some "processing" ∧
        (result.1 "s9").map (fun c => c.state.human_feedback_research_plan.isSome) =
          some true := by
  exact ⟨rfl, rfl, rfl⟩

/-- C4 as amended: `submit_feedback` rejects only a nonexistent session
(404).  For an existing session it applies the feedback unconditionally —
without checking that the session is suspended, or suspended at the targeted
checkpoint — and acknowledges success; for the `research_plan` checkpoint
type the feedback slot is overwritten with the new value (so a second call
for the same wait overwrites rather than no-ops), `requires_human_input` is
cleared and the status becomes `processing` regardless of the previous
status. -/
theorem c4_amended_unconditional_accept (store : SessionStore)
    (req : FeedbackRequest) :
    match store req.session_id with
    | none => submit_feedback store req = .error (.notFound "Session not found")
    | some ctx =>
        match submit_feedback store req with
        | .error _ => False
        | .ok result =>
            result.1 req.session_id = some (applyFeedback req ctx) ∧
            result.2 = ⟨"feedback_received", req.session_id,
                        req.checkpoint_type, req.decision⟩ ∧
            (req.checkpoint_type = "research_plan" →
              applyFeedback req ctx =
                ⟨{ ctx.state with
                     human_feedback_research_plan := some (mkFeedback
                       req.checkpoint_type req.decision req.comments
                       req.emphasis_areas),
                     requires_human_input := false }, "processing"⟩) := by
  cases hctx : store req.session_id with
  | none => unfold submit_feedback; rw [hctx]
  | some ctx =>
      unfold submit_feedback
      rw [hctx]
      refine ⟨by simp, rfl, fun hrp => ?_⟩
      unfold applyFeedback
      rw [if_pos hrp]

/-- Context of a session whose research-plan feedback slot already holds an
earlier `revise` feedback. -/
def prevFeedback : HumanFeedback :=
  mkFeedback "research_plan" "revise" (some "old") none

def prevFeedbackCtx : ExecContext :=
  ⟨{ sampleState with human_feedback_research_plan := some prevFeedback },
   "processing"⟩

/-- Store holding `prevFeedbackCtx` under the session id s2. -/
def prevFeedbackStore : SessionStore :=
  fun sid => if sid = "s2" then some prevFeedbackCtx else none

/-- Second feedback submission for the same checkpoint. -/
def secondFeedbackReq : FeedbackRequest :=
  { session_id := "s2", checkpoint_type := "research_plan", decision := "approve" }

/-- Witness for the amended C4: a second submission against a session whose
slot already holds feedback (and which is already `processing`) overwrites
the slot and is acknowledged. -/
theorem c4_amended_unconditional_accept_witness :
    match submit_feedback prevFeedbackStore secondFeedbackReq with
    | .error _ => False
    | .ok result =>
        result.1 "s2" = some (applyFeedback secondFeedbackReq prevFeedbackCtx) ∧
        result.2 = ⟨"feedback_received", "s2", "research_plan", "approve"⟩ ∧
        applyFeedback secondFeedbackReq prevFeedbackCtx =
          ⟨{ prevFeedbackCtx.state with
               human_feedback_research_plan :=
                 some (mkFeedback "research_plan" "approve" none none),
               requires_human_input := false }, "processing"⟩ := by
  have h := c4_amended_unconditional_accept prevFeedbackStore secondFeedbackReq
  exact ⟨h.1, h.2.1, h.2.2 rfl⟩

/-! Scheduler computation lemmas. -/

/-- A fresh stream executes `input` and `plan` and pauses before `search`. -/
theorem runSched_from_input (env : Nat → NodeOracle) (i : Nat) (s : ResearchState) :
    runSched env i ⟨some .input, s⟩ =
      ⟨[.input, .plan],
       ⟨some .search, research_plan_node (env (i + 1)).planLLM (input_node s)⟩,
       .pausedAt .search⟩ := rfl

/-- A stream resumed at `plan` executes `plan` and pauses before `search`. -/
theorem runSched_from_plan (env : Nat → NodeOracle) (i : Nat) (s : ResearchState) :
    runSched env i ⟨some .plan, s⟩ =
      ⟨[.plan], ⟨some .search, research_plan_node (env i).planLLM s⟩,
       .pausedAt .search⟩ := rfl

/-- Oracle in which every collaborator call fails to parse and every search
returns no results. -/
def trivOracle : NodeOracle :=
  { planLLM := .error (), searchLLM := .error (), google := fun _ => [],
    extractLLM := .error (), synthLLM := .error (), refineLLM := .error (),
    briefLLM := "", fmtTimestamp := "", fmtSession := "" }

/-- Oracle environment that answers every invocation with `trivOracle`. -/
def trivEnv : Nat → NodeOracle := fun _ => trivOracle

/-- Success results of refinement_node that turn `requires_human_input` on
(it was off before) always carry the matching checkpoint id `plan_review`. -/
theorem refinement_node_flag_discipline {llm : Except Unit PyVal}
    {s s2 : ResearchState} (h : refinement_node llm s = .ok s2) :
    s.requires_human_input = false → s2.requires_human_input = true →
    s2.checkpoint_id = some "plan_review" := by
  unfold refinement_node at h
  split at h
  · cases h; intro h0 h1; simp at h1
  · split at h
    · split at h
      · simp at h
      · cases h; intro h0 h1; simp at h1
    · split at h
      · split at h
        · simp at h
        · split at h
          · cases h; intro h0 h1; simp at h1
          · rename_i kvs
            rcases hp : refineParsePlan kvs with e | plan
            · rw [hp] at h; simp [Except.map] at h
            · rw [hp] at h
              simp only [Except.map, Except.ok.injEq] at h
              subst h; intro h0 h1; rfl
          · simp at h
      · split at h
        · simp at h
        · cases h; intro h0 h1; simp [h0] at h1

/-- Session suspended at the plan-review checkpoint with both HITL fields
set, as synthesis_node leaves them. -/
def suspendedReviewState : ResearchState :=
  { topic := "t", user_id := "u", requires_human_input := true,
    checkpoint_id := some "plan_review" }

/-- Store holding the suspended plan-review session under id s3. -/
def suspendedReviewStore : SessionStore :=
  fun sid => if sid = "s3" then
    some ⟨suspendedReviewState, "waiting_plan_review"⟩ else none

/-- Feedback consuming the plan-review wait. -/
def planReviewFeedbackReq : FeedbackRequest :=
  { session_id := "s3", checkpoint_type := "plan_review", decision := "approve" }

/-- Counterexample to C3: the resume step that consumes the feedback
(`submit_feedback`) clears `requires_human_input` but leaves
`checkpoint_id` set, so it does not clear both fields as claimed. -/
theorem c3_counterexample :
    match submit_feedback suspendedReviewStore planReviewFeedbackReq with
    | .error _ => False
    | .ok result =>
        (result.1 "s3").map (fun c => c.state.requires_human_input) = some false ∧
        (result.1 "s3").map (fun c => c.state.checkpoint_id) =
          some (some "plan_review") := by
  exact ⟨rfl, rfl⟩

/-- C3 as amended: a node that turns `requires_human_input` on sets the
matching `checkpoint_id` in the same step (`synthesis_node` sets both
unconditionally, `refinement_node` whenever it turns the flag on); the
feedback-submission resume clears `requires_human_input` but leaves
`checkpoint_id` untouched; and the equivalence with being halted before an
interrupt point fails: the fresh run of every session halts before the
`search` interrupt with `requires_human_input = false`. -/
theorem c3_amended_hitl_flag_invariant :
    (∀ (llm : Except Unit PyVal) (s : ResearchState),
      ExceptOkP (synthesis_node llm s) (fun s2 =>
        s2.requires_human_input = true ∧ s2.checkpoint_id = some "plan_review")) ∧
    (∀ (llm : Except Unit PyVal) (s : ResearchState),
      ExceptOkP (refinement_node llm s) (fun s2 =>
        s.requires_human_input = false → s2.requires_human_input = true →
        s2.checkpoint_id = some "plan_review")) ∧
    (∀ (store : SessionStore) (req : FeedbackRequest),
      match store req.session_id with
      | none => True
      | some ctx =>
          req.checkpoint_type = "plan_review" →
          match submit_feedback store req with
          | .error _ => False
          | .ok result =>
              (result.1 req.session_id).map (fun c => c.state.requires_human_input) =
                some false ∧
              (result.1 req.session_id).map (fun c => c.state.checkpoint_id) =
                some ctx.state.checkpoint_id) ∧
    (∀ (env : Nat → NodeOracle) (t u : String),
      (runSched env 0 ⟨some .input, { topic := t, user_id := u }⟩).status =
        .pausedAt .search ∧
      (runSched env 0 ⟨some .input,
        { topic := t, user_id := u }⟩).final.state.requires_human_input = false) := by
  refine ⟨fun llm s => ?_, fun llm s => ?_, fun store req => ?_, fun env t u => ⟨rfl, rfl⟩⟩
  · refine exceptOkP_of_eq (fun s2 h => ?_)
    obtain ⟨dp, hdp⟩ := synthesis_node_ok_shape h
    subst hdp; exact ⟨rfl, rfl⟩
  · exact exceptOkP_of_eq (fun s2 h => refinement_node_flag_discipline h)
  · cases hctx : store req.session_id with
    | none => trivial
    | some ctx =>
        intro hrp
        unfold submit_feedback
        rw [hctx]
        simp [applyFeedback, hrp]

/-- Witness for the amended C3: concrete instances — the fallback synthesis
result carries both flags, and a concrete plan-review feedback submission
clears the flag while keeping the stored checkpoint id. -/
theorem c3_amended_hitl_flag_invariant_witness :
    (match synthesis_node (.error ()) sampleState with
     | .error _ => True
     | .ok s2 => s2.requires_human_input = true ∧
                 s2.checkpoint_id = some "plan_review") ∧
    (match submit_feedback suspendedReviewStore planReviewFeedbackReq with
     | .error _ => False
     | .ok result =>
         (result.1 "s3").map (fun c => c.state.requires_human_input) = some false ∧
         (result.1 "s3").map (fun c => c.state.checkpoint_id) =
           some suspendedReviewState.checkpoint_id) := by
  have h := c3_amended_hitl_flag_invariant
  exact ⟨h.1 (.error ()) sampleState,
         (h.2.2.1 suspendedReviewStore planReviewFeedbackReq) rfl⟩

/-- Counterexample to C5: when no feedback ever arrives (the stored status
stays `waiting_research_plan` at every tick), the suspended wait sends
exactly one error event and attempts no resume — but the stored status is
left at `waiting_research_plan`, it is never set to `failed`, so the
subsequent status query reports the waiting status rather than `failed`. -/
theorem c5_counterexample :
    hitlWait (fun _ => "waiting_research_plan") "waiting_research_plan" =
      ⟨1, false, "waiting_research_plan"⟩ ∧
    get_status sampleStore "s1" =
      .ok ⟨"s1", "waiting_research_plan", "input", "graph databases"⟩ ∧
    "waiting_research_plan" ≠ "failed" := by
  refine ⟨rfl, rfl, by decide⟩

/-- C5 as amended: with no feedback within the timeout bound the channel
receives exactly one error event and no partial resume is attempted, but
the session is abandoned with its status still at the waiting value — a
subsequent status query reports that waiting status (never `failed`). -/
theorem c5_amended_timeout_keeps_waiting_status (st : ResearchState)
    (sid : String) :
    hitlWait (fun _ => "waiting_research_plan") "waiting_research_plan" =
      ⟨1, false, "waiting_research_plan"⟩ ∧
    (hitlWait (fun _ => "waiting_research_plan")
      "waiting_research_plan").finalStatus ≠ "failed" ∧
    get_status (fun x => if x = sid then some ⟨st, "waiting_research_plan"⟩ else none)
        sid =
      .ok ⟨sid, "waiting_research_plan", st.current_node, st.topic⟩ := by
  refine ⟨rfl, by decide, ?_⟩
  unfold get_status
  simp

/-- Counterexample to C7: on collaborator content that is well-formed JSON
of an unexpected shape — a claims array whose entry lacks the `claim` key —
extract_node raises a `KeyError` past the node boundary instead of
recovering with a fallback. -/
theorem c7_counterexample :
    extract_node (.ok (.arr [.obj [("source", .str "s")]])) sampleState =
      .error (.keyError "claim") := rfl

/-- C7 as amended: the collaborator wrapper `call_openai` is total and
returns the error string `"Error: " ++ e` rather than raising, and every
node recovers from a failed/unparseable collaborator response with its
deterministic fallback (snippet-built claims, topic-based queries, the
fallback research plan, the fallback draft plan, the unmodified draft plan
in refinement); but handlers catch only `JSONDecodeError`, so content that
parses to JSON of an unexpected shape can raise past the node boundary
(see the counterexample). -/
theorem c7_amended_fallback_recovery :
    (∀ e : String, call_openai (.error e) = "Error: " ++ e) ∧
    (∀ t : String, call_openai (.ok t) = t) ∧
    (∀ s : ResearchState, extract_node (.error ()) s =
      .ok { s with extracted_claims := s.extracted_claims ++ fallbackClaims s,
                   current_node := "extract" }) ∧
    (∀ (g : String → List GoogleResult) (s : ResearchState),
      (search_node (.error ()) g s).search_queries = fallbackSearchQueries s.topic) ∧
    (∀ s : ResearchState,
      (research_plan_node (.error ()) s).research_plan.map (fun p => p.search_queries) =
        some (fallbackPlanQueries s.topic)) ∧
    (∀ s : ResearchState, synthesis_node (.error ()) s =
      .ok { s with draft_plan := some (synthFallbackPlan s),
                   requires_human_input := true,
                   checkpoint_id := some "plan_review",
                   current_node := "synthesis" }) ∧
    (∀ (s : ResearchState) (fb : HumanFeedback) (dp : DraftPlan),
      refinement_node (.error ())
        { s with human_feedback_plan := some { fb with decision := "rework" },
                 draft_plan := some dp } =
        .ok { s with human_feedback_plan := some { fb with decision := "rework" },
                     draft_plan := some dp,
                     refined_plan := some dp,
                     requires_human_input := false,
                     checkpoint_id := none,
                     current_node := "refinement" }) := by
  refine ⟨fun e => rfl, fun t => rfl, fun s => rfl, fun g s => rfl, fun s => rfl,
          fun s => rfl, fun s fb dp => rfl⟩

/-! Citation-id bookkeeping for C6. -/

/-- Ids forming the consecutive run `cid, cid + 1, ...` — the shape in which
search_node's citation counter assigns them. -/
def IdsFrom : Int → List Int → Prop
  | _, [] => True
  | cid, x :: xs => x = cid ∧ IdsFrom (cid + 1) xs

theorem idsFrom_le {cid : Int} {l : List Int} (h : IdsFrom cid l) :
    ∀ x ∈ l, cid ≤ x := by
  induction l generalizing cid with
  | nil => intro x hx; simp at hx
  | cons y ys ih =>
      intro x hx
      rcases List.mem_cons.mp hx with hx | hx
      · rw [hx, h.1]
      · exact le_trans (by omega) (ih h.2 x hx)

theorem idsFrom_pairwise {cid : Int} {l : List Int} (h : IdsFrom cid l) :
    l.Pairwise (· < ·) := by
  induction l generalizing cid with
  | nil => exact List.Pairwise.nil
  | cons y ys ih =>
      refine List.Pairwise.cons (fun x hx => ?_) (ih h.2)
      have hle := idsFrom_le h.2 x hx
      have hy := h.1
      omega

theorem idsFrom_append {cid : Int} {l1 l2 : List Int} (h1 : IdsFrom cid l1)
    (h2 : IdsFrom (cid + l1.length) l2) : IdsFrom cid (l1 ++ l2) := by
  induction l1 generalizing cid with
  | nil => simpa using h2
  | cons y ys ih =>
      refine ⟨h1.1, ih h1.2 ?_⟩
      have : cid + 1 + (ys.length : Int) = cid + ((ys.length : Int) + 1) := by ring
      simpa [this] using h2

theorem citeResults_length (rs : List GoogleResult) (cid : Int) :
    (citeResults rs cid).1.length = rs.length := by
  induction rs generalizing cid with
  | nil => rfl
  | cons r rs ih => simp [citeResults, ih]

theorem citeResults_counter (rs : List GoogleResult) (cid : Int) :
    (citeResults rs cid).2.2 = cid + rs.length := by
  induction rs generalizing cid with
  | nil => simp [citeResults]
  | cons r rs ih =>
      simp only [citeResults, ih, List.length_cons]
      push_cast
      ring

theorem citeResults_ids_from (rs : List GoogleResult) (cid : Int) :
    IdsFrom cid ((citeResults rs cid).1.map (fun c => c.id)) := by
  induction rs generalizing cid with
  | nil => trivial
  | cons r rs ih => exact ⟨rfl, ih (cid + 1)⟩

theorem citeResults_res_ids (rs : List GoogleResult) (cid : Int) :
    (citeResults rs cid).2.1.map (fun r => r.citation_id) =
      (citeResults rs cid).1.map (fun c => c.id) := by
  induction rs generalizing cid with
  | nil => rfl
  | cons r rs ih => simp [citeResults, ih]

theorem searchAll_ids_from (g : String → List GoogleResult) (qs : List String)
    (cid : Int) : IdsFrom cid ((searchAll g qs cid).1.map (fun c => c.id)) := by
  induction qs generalizing cid with
  | nil => trivial
  | cons q qs ih =>
      simp only [searchAll, List.map_append]
      refine idsFrom_append (citeResults_ids_from (g q) cid) ?_
      have hl : ((citeResults (g q) cid).1.map (fun c => c.id)).length =
          ((g q).length : Int) := by simp [citeResults_length]
      rw [hl, ← citeResults_counter (g q) cid]
      exact ih _

theorem searchAll_res_ids (g : String → List GoogleResult) (qs : List String)
    (cid : Int) :
    (searchAll g qs cid).2.1.map (fun r => r.citation_id) =
      (searchAll g qs cid).1.map (fun c => c.id) := by
  induction qs generalizing cid with
  | nil => rfl
  | cons q qs ih =>
      simp only [searchAll, List.map_append, citeResults_res_ids, ih]

/-- Every search-result citation id produced by search_node has a matching
citation in the produced citation list. -/
theorem search_node_results_cited (llm : Except Unit (List String))
    (g : String → List GoogleResult) {s : ResearchState}
    (hc : s.citations = []) :
    ∀ r ∈ (search_node llm g s).search_results,
      ∃ cit ∈ (search_node llm g s).citations, cit.id = r.citation_id := by
  intro r hr
  have hmem : r.citation_id ∈
      ((search_node llm g s).search_results.map (fun r => r.citation_id)) :=
    List.mem_map_of_mem _ hr
  have heq : (search_node llm g s).search_results.map (fun r => r.citation_id) =
      (search_node llm g s).citations.map (fun c => c.id) := by
    simp only [search_node, hc, List.nil_append]
    exact searchAll_res_ids g _ 1
  rw [heq] at hmem
  obtain ⟨cit, hcit, hid⟩ := List.mem_map.mp hmem
  exact ⟨cit, hcit, hid⟩

/-- Membership transfer through a successful `mapM` over `Except`. -/
theorem mapM_ok_mem {α β : Type} {f : α → Except PyErr β} {l : List α}
    {L : List β} (h : l.mapM f = .ok L) : ∀ b ∈ L, ∃ a ∈ l, f a = .ok b := by
  induction l generalizing L with
  | nil =>
      simp only [List.mapM_nil, pure, Except.pure, Except.ok.injEq] at h
      subst h; intro b hb; simp at hb
  | cons a l ih =>
      rw [List.mapM_cons] at h
      simp only [bind, Except.bind, pure, Except.pure] at h
      rcases hfa : f a with e | b0
      · simp only [hfa] at h; simp at h
      · simp only [hfa] at h
        rcases hml : l.mapM f with e | L0
        · simp only [hml] at h; simp at h
        · simp only [hml, Except.ok.injEq] at h
          subst h
          intro b hb
          rcases List.mem_cons.mp hb with hb | hb
          · exact ⟨a, List.mem_cons_self a l, by rw [hfa, hb]⟩
          · obtain ⟨a2, ha2, hfa2⟩ := ih hml b hb
            exact ⟨a2, List.mem_cons_of_mem _ ha2, hfa2⟩

/-- The citation id of a successfully validated claim entry is either one of
the valid ids or the default id. -/
theorem parseClaimItem_ok_cid {validIds : List Int} {defaultId : Int}
    {v : PyVal} {c : ExtractedClaim}
    (h : parseClaimItem validIds defaultId v = .ok c) :
    c.citation_id ∈ validIds ∨ c.citation_id = defaultId := by
  cases v with
  | obj kvs =>
      simp only [parseClaimItem] at h
      rcases hf : claimFields kvs with e | f
      · rw [hf] at h; simp [Except.map] at h
      · rw [hf] at h
        simp only [Except.map, Except.ok.injEq] at h
        subst h
        show resolveCitationId validIds defaultId kvs ∈ validIds ∨
          resolveCitationId validIds defaultId kvs = defaultId
        unfold resolveCitationId
        split
        · split
          · rename_i hmem; exact Or.inl hmem
          · exact Or.inr rfl
        · split
          · rename_i hmem; exact Or.inl hmem.2
          · exact Or.inr rfl
        · exact Or.inr rfl
        · exact Or.inr rfl
  | null => simp [parseClaimItem] at h
  | bool b => simp [parseClaimItem] at h
  | int n => simp [parseClaimItem] at h
  | float q => simp [parseClaimItem] at h
  | str t => simp [parseClaimItem] at h
  | arr xs => simp [parseClaimItem] at h

/-- Counterexample to C6: in a session whose searches all returned no
results, the citation set is empty; extract_node then takes `1` as the
default citation id, so a generation-stage entry with an unknown
`citation_id` produces a claim whose citation id references no existing
citation — the fallback id is not valid. -/
theorem c6_counterexample :
    match extract_node
        (.ok (.arr [.obj [("claim", .str "c"), ("source", .str "s"),
                          ("citation_id", .int 5)]]))
        (search_node (.error ()) (fun _ => []) { topic := "t" }) with
    | .error _ => False
    | .ok s2 =>
        s2.extracted_claims.map (fun c => c.citation_id) = [1] ∧
        s2.citations = [] ∧
        (s2.extracted_claims.any (fun c =>
          s2.citations.all (fun cit => cit.id != c.citation_id))) = true := by
  exact ⟨rfl, rfl, rfl⟩

/-- C6 as amended: citation ids are unique and monotonically assigned (the
ids of the citations search_node appends form the consecutive run 1, 2, …),
and whenever the session's search produced at least one result, every
extracted claim references an existing citation — an unknown id from the
generation-stage collaborator falls back to the first result's (valid)
citation id.  Only when the search produced no results at all does the
fallback id 1 reference no citation (see the counterexample). -/
theorem c6_amended_citation_discipline :
    (∀ (llm : Except Unit (List String)) (g : String → List GoogleResult)
       (s : ResearchState),
      IdsFrom 1 (((search_node llm g s).citations.drop s.citations.length).map
        (fun c => c.id)) ∧
      (((search_node llm g s).citations.drop s.citations.length).map
        (fun c => c.id)).Pairwise (· < ·)) ∧
    (∀ (sllm : Except Unit (List String)) (g : String → List GoogleResult)
       (ellm : Except Unit PyVal) (s : ResearchState),
      s.citations = [] → s.extracted_claims = [] →
      (search_node sllm g s).search_results ≠ [] →
      ExceptOkP (extract_node ellm (search_node sllm g s)) (fun s2 =>
        ∀ c ∈ s2.extracted_claims, ∃ cit ∈ s2.citations,
          cit.id = c.citation_id)) := by
  constructor
  · intro llm g s
    have hdrop : (search_node llm g s).citations.drop s.citations.length =
        (searchAll g ((match llm with
          | .ok qs => qs
          | .error _ => fallbackSearchQueries s.topic).take 5) 1).1 := by
      simp only [search_node]
      exact List.drop_left _ _
    rw [hdrop]
    exact ⟨searchAll_ids_from g _ 1,
           idsFrom_pairwise (searchAll_ids_from g _ 1)⟩
  · intro sllm g ellm s hc he hne
    refine exceptOkP_of_eq (fun s2 h2 => ?_)
    have hres := @search_node_results_cited sllm g s hc
    have hclaims : (search_node sllm g s).extracted_claims = [] := he
    unfold extract_node at h2
    split at h2
    · cases h2
      intro c hmem
      rcases List.mem_append.mp hmem with hm | hm
      · rw [hclaims] at hm; simp at hm
      · obtain ⟨r, hr8, hcr⟩ := List.mem_map.mp hm
        obtain ⟨cit, hcit, hid⟩ := hres r (List.mem_of_mem_take hr8)
        exact ⟨cit, hcit, by rw [hid, ← hcr]⟩
    · split at h2
      · rename_i items
        simp only [] at h2
        rcases hm : items.mapM (parseClaimItem
            ((search_node sllm g s).search_results.map (fun r => r.citation_id))
            (match (search_node sllm g s).search_results with
             | r :: _ => r.citation_id
             | [] => 1)) with e | claims
        · rw [hm] at h2; simp [Except.map] at h2
        · rw [hm] at h2
          simp only [Except.map, Except.ok.injEq] at h2
          subst h2
          intro c hmem
          rcases List.mem_append.mp hmem with hcm | hcm
          · rw [hclaims] at hcm; simp at hcm
          · obtain ⟨v, hv, hpv⟩ := mapM_ok_mem hm c hcm
            rcases parseClaimItem_ok_cid hpv with hmemid | hdef
            · obtain ⟨r, hr, hid⟩ := List.mem_map.mp hmemid
              obtain ⟨cit, hcit, hcid⟩ := hres r hr
              exact ⟨cit, hcit, by rw [hcid, hid]⟩
            · rcases hsr : (search_node sllm g s).search_results with _ | ⟨r0, rs⟩
              · exact absurd hsr hne
              · simp only [hsr] at hdef
                have hr0 : r0 ∈ (search_node sllm g s).search_results := by
                  rw [hsr]; exact List.mem_cons_self r0 rs
                obtain ⟨cit, hcit, hcid⟩ := hres r0 hr0
                exact ⟨cit, hcit, by rw [hcid, hdef]⟩
      · simp at h2

/-! Scheduler re-entrancy (C2). -/

/-- Unfolding of one Scheduler step at a pending node. -/
theorem runFuel_succ_some (env : Nat → NodeOracle) (fuel i : Nat) (first : Bool)
    (n : GraphNode) (s : ResearchState) :
    runFuel env (fuel + 1) i first ⟨some n, s⟩ =
      if n ∈ interruptBefore ∧ first = false then ⟨[], ⟨some n, s⟩, .pausedAt n⟩
      else match runNode (env i) n s with
        | .error e => ⟨[n], ⟨some n, s⟩, .errored e⟩
        | .ok s2 =>
            ⟨n :: (runFuel env fuel (i + 1) false ⟨successor n s2, s2⟩).visited,
             (runFuel env fuel (i + 1) false ⟨successor n s2, s2⟩).final,
             (runFuel env fuel (i + 1) false ⟨successor n s2, s2⟩).status⟩ := rfl

/-- After its first step, a Scheduler invocation never executes an
interrupt-point node: it pauses before it instead. -/
theorem interrupt_not_revisited (env : Nat → NodeOracle) (fuel : Nat) :
    ∀ (i : Nat) (c : Checkpoint) (n : GraphNode), n ∈ interruptBefore →
    ((runFuel env fuel i false c).visited.count n) = 0 := by
  induction fuel with
  | zero => intro i c n hn; rfl
  | succ fuel ih =>
      intro i c n hn
      rcases c with ⟨pending, s⟩
      rcases pending with _ | m
      · rfl
      · rw [runFuel_succ_some]
        by_cases hm : m ∈ interruptBefore
        · rw [if_pos ⟨hm, rfl⟩]; rfl
        · rw [if_neg (by simp [hm])]
          have hmn : ¬(n = m) := fun he => hm (he ▸ hn)
          cases hr : runNode (env i) m s with
          | error e => simp [List.count_cons, hmn]
          | ok s2 => simp [List.count_cons, hmn, ih (i + 1) ⟨successor m s2, s2⟩ n hn]

/-- The first step of a Scheduler invocation executes the pending node even
when it is an interrupt point. -/
theorem runSched_first_step (env : Nat → NodeOracle) (i : Nat) (n : GraphNode)
    (s : ResearchState) :
    runSched env i ⟨some n, s⟩ =
      match runNode (env i) n s with
      | .error e => ⟨[n], ⟨some n, s⟩, .errored e⟩
      | .ok s2 =>
          ⟨n :: (runFuel env 11 (i + 1) false ⟨successor n s2, s2⟩).visited,
           (runFuel env 11 (i + 1) false ⟨successor n s2, s2⟩).final,
           (runFuel env 11 (i + 1) false ⟨successor n s2, s2⟩).status⟩ := by
  show runFuel env (11 + 1) i true ⟨some n, s⟩ = _
  rw [runFuel_succ_some]
  rw [if_neg (by simp)]

/-- A Scheduler invocation reports `pausedAt n` only with `n` still pending
and `n` an interrupt point. -/
theorem paused_at_interrupt (env : Nat → NodeOracle) (fuel : Nat) :
    ∀ (i : Nat) (first : Bool) (c : Checkpoint) (n : GraphNode),
    (runFuel env fuel i first c).status = .pausedAt n →
    (runFuel env fuel i first c).final.pending = some n ∧ n ∈ interruptBefore := by
  induction fuel with
  | zero => intro i first c n h; simp [runFuel] at h
  | succ fuel ih =>
      intro i first c n h
      rcases c with ⟨pending, s⟩
      rcases pending with _ | m
      · simp [runFuel] at h
      · rw [runFuel_succ_some] at h ⊢
        by_cases hcond : m ∈ interruptBefore ∧ first = false
        · rw [if_pos hcond] at h ⊢
          simp only [RunStatus.pausedAt.injEq] at h
          subst h
          exact ⟨rfl, hcond.1⟩
        · rw [if_neg hcond] at h ⊢
          cases hr : runNode (env i) m s with
          | error e => rw [hr] at h; simp at h
          | ok s2 => rw [hr] at h; exact ih (i + 1) false ⟨successor m s2, s2⟩ n h

/-- Re-invoking the Scheduler at an interrupt node executes that node
exactly once within the invocation. -/
theorem run_from_interrupt_count (env : Nat → NodeOracle) (i : Nat)
    (n : GraphNode) (s : ResearchState) (hn : n ∈ interruptBefore) :
    ((runSched env i ⟨some n, s⟩).visited.count n) = 1 := by
  rw [runSched_first_step]
  cases hr : runNode (env i) n s with
  | error e => simp [List.count_cons]
  | ok s2 =>
      have h0 := interrupt_not_revisited env 11 (i + 1) ⟨successor n s2, s2⟩ n hn
      simp [List.count_cons, h0]

/-- C2: for every State Record and Scheduler run that halts paused before an
interrupt node `n` (one of search, synthesize, refine), re-invoking the run
on the resulting checkpoint — under any collaborator outcomes — executes
`n` exactly once: it is neither skipped nor executed twice.  Modelled from
the spec: the Scheduler itself follows §4.2, instantiated with the graph of
`create_research_graph`. -/
theorem c2_reentrant_interrupt_execution (envA envB : Nat → NodeOracle)
    (fuel iA iB : Nat) (first : Bool) (c : Checkpoint) (n : GraphNode)
    (h : (runFuel envA fuel iA first c).status = .pausedAt n) :
    ((runSched envB iB (runFuel envA fuel iA first c).final).visited.count n) = 1 := by
  obtain ⟨hp, hn⟩ := paused_at_interrupt envA fuel iA first c n h
  have heta : (runFuel envA fuel iA first c).final =
      ⟨some n, (runFuel envA fuel iA first c).final.state⟩ := by
    rw [← hp]
  rw [heta]
  exact run_from_interrupt_count envB iB n _ hn

/-- Witness for C2: a fresh run of the sample session pauses before
`search`; re-invoking the Scheduler on the resulting checkpoint executes
`search` exactly once. -/
theorem c2_reentrant_interrupt_execution_witness :
    ((runSched trivEnv 0
      (runFuel trivEnv 12 0 true ⟨some .input, sampleState⟩).final).visited.count
        .search) = 1 :=
  c2_reentrant_interrupt_execution trivEnv trivEnv 12 0 0 true
    ⟨some .input, sampleState⟩ .search rfl

/-- Witness for the amended C6: one concrete Google result per query — the
new citation ids are the consecutive run from 1, and extract_node's
snippet fallback only references existing citations. -/
theorem c6_amended_citation_discipline_witness :
    IdsFrom 1 (((search_node (.error ()) (fun _ => [⟨"T", "L", "Sn", "Src"⟩])
      { topic := "t" }).citations.drop 0).map (fun c => c.id)) ∧
    ExceptOkP (extract_node (.error ())
        (search_node (.error ()) (fun _ => [⟨"T", "L", "Sn", "Src"⟩]) { topic := "t" }))
      (fun s2 => ∀ c ∈ s2.extracted_claims, ∃ cit ∈ s2.citations,
        cit.id = c.citation_id) := by
  have h := c6_amended_citation_discipline
  exact ⟨(h.1 (.error ()) (fun _ => [⟨"T", "L", "Sn", "Src"⟩]) { topic := "t" }).1,
         h.2 (.error ()) (fun _ => [⟨"T", "L", "Sn", "Src"⟩]) (.error ())
           { topic := "t" } rfl rfl (by decide)⟩

/-! Determinism of the visited-node sequence (C8). -/

/-- Scheduler configuration for the step relation: oracle index, whether the
next step is the first of the invocation, and the checkpoint. -/
structure SchedConfig where
  idx : Nat
  first : Bool
  cp : Checkpoint

/-- One execution step of the Scheduler as a relation, labelled with the
executed node: the pending node runs when the pause-before rule does not
apply (first step, or not an interrupt point), and the next pending node is
chosen by the — possibly conditional — edge evaluated against the updated
State Record. -/
inductive SchedStep (env : Nat → NodeOracle) :
    SchedConfig → GraphNode → SchedConfig → Prop
  | exec {i : Nat} {first : Bool} {n : GraphNode} {s s2 : ResearchState} :
      (first = true ∨ n ∉ interruptBefore) →
      runNode (env i) n s = .ok s2 →
      SchedStep env ⟨i, first, ⟨some n, s⟩⟩ n ⟨i + 1, false, ⟨successor n s2, s2⟩⟩

/-- Finite executions of the step relation, carrying the sequence of
executed nodes. -/
inductive SchedTrace (env : Nat → NodeOracle) :
    SchedConfig → List GraphNode → SchedConfig → Prop
  | refl (c : SchedConfig) : SchedTrace env c [] c
  | cons {c c2 c3 : SchedConfig} {n : GraphNode} {t : List GraphNode} :
      SchedStep env c n c2 → SchedTrace env c2 t c3 → SchedTrace env c (n :: t) c3

/-- A configuration from which no step is possible: the run has reached END,
is paused before an interrupt point, or a handler failed. -/
def Blocked (env : Nat → NodeOracle) (c : SchedConfig) : Prop :=
  ∀ n c2, ¬ SchedStep env c n c2

/-- The step relation is deterministic: from one configuration, at most one
labelled step is possible. -/
theorem schedStep_deterministic {env : Nat → NodeOracle} {c : SchedConfig}
    {n1 n2 : GraphNode} {c1 c2 : SchedConfig}
    (h1 : SchedStep env c n1 c1) (h2 : SchedStep env c n2 c2) :
    n1 = n2 ∧ c1 = c2 := by
  cases h1 with
  | exec hf1 hr1 =>
      cases h2 with
      | exec hf2 hr2 =>
          rw [hr1] at hr2
          cases hr2
          exact ⟨rfl, rfl⟩

/-- C8: for a fixed Graph Definition, fixed input State Record and fixed
collaborator outputs, the sequence of visited nodes is deterministic — any
two complete executions (runs continued until no step is possible) from the
same configuration visit the same node sequence and end in the same
configuration. -/
theorem c8_deterministic_node_sequence {env : Nat → NodeOracle}
    {c c1 c2 : SchedConfig} {t1 t2 : List GraphNode}
    (h1 : SchedTrace env c t1 c1) (hb1 : Blocked env c1)
    (h2 : SchedTrace env c t2 c2) (hb2 : Blocked env c2) :
    t1 = t2 ∧ c1 = c2 := by
  induction h1 generalizing t2 with
  | refl c =>
      cases h2 with
      | refl => exact ⟨rfl, rfl⟩
      | cons hs ht => exact absurd hs (hb1 _ _)
  | cons hs ht ih =>
      cases h2 with
      | refl => exact absurd hs (hb2 _ _)
      | cons hs2 ht2 =>
          obtain ⟨hn, hc⟩ := schedStep_deterministic hs hs2
          subst hn
          subst hc
          obtain ⟨hteq, hceq⟩ := ih hb1 ht2
          exact ⟨by rw [hteq], hceq⟩

/-- State with a brief ready for the formatting step. -/
def briefReadyState : ResearchState :=
  { sampleState with final_brief := some "b" }

/-- Witness for C8: two complete one-step executions of the `format` node
from the same configuration coincide. -/
theorem c8_deterministic_node_sequence_witness :
    ([GraphNode.format] : List GraphNode) = [GraphNode.format] ∧
    (⟨1, false, ⟨none, { briefReadyState with
        formatted_brief := some (formatMetadata "" "" briefReadyState.topic ++ "b"),
        current_node := "formatting" }⟩⟩ : SchedConfig) =
      ⟨1, false, ⟨none, { briefReadyState with
        formatted_brief := some (formatMetadata "" "" briefReadyState.topic ++ "b"),
        current_node := "formatting" }⟩⟩ := by
  have hstep : SchedStep trivEnv ⟨0, true, ⟨some .format, briefReadyState⟩⟩
      .format ⟨1, false, ⟨none, { briefReadyState with
        formatted_brief := some (formatMetadata "" "" briefReadyState.topic ++ "b"),
        current_node := "formatting" }⟩⟩ := by
    have h := @SchedStep.exec trivEnv 0 true GraphNode.format briefReadyState
      { briefReadyState with
        formatted_brief := some (formatMetadata "" "" briefReadyState.topic ++ "b"),
        current_node := "formatting" } (Or.inl rfl) rfl
    exact h
  have hblocked : Blocked trivEnv ⟨1, false, ⟨none, { briefReadyState with
      formatted_brief := some (formatMetadata "" "" briefReadyState.topic ++ "b"),
      current_node := "formatting" }⟩⟩ := by
    intro n c2 h
    cases h
  exact c8_deterministic_node_sequence
    (SchedTrace.cons hstep (SchedTrace.refl _)) hblocked
    (SchedTrace.cons hstep (SchedTrace.refl _)) hblocked

/-! Revision-loop accounting (C1). -/

/-- A resume from the `search` interrupt never executes `plan` again and
leaves the research plan untouched (search, extract and prioritize do not
write it), whatever the collaborator outcomes. -/
theorem run_from_search_facts (env : Nat → NodeOracle) (i : Nat)
    (s : ResearchState) :
    ((runSched env i ⟨some .search, s⟩).visited.count .plan) = 0 ∧
    (runSched env i ⟨some .search, s⟩).final.state.research_plan =
      s.research_plan := by
  have e1 : runSched env i ⟨some .search, s⟩ =
      ⟨.search :: (runFuel env 11 (i + 1) false
          ⟨some .extract, search_node (env i).searchLLM (env i).google s⟩).visited,
       (runFuel env 11 (i + 1) false
          ⟨some .extract, search_node (env i).searchLLM (env i).google s⟩).final,
       (runFuel env 11 (i + 1) false
          ⟨some .extract, search_node (env i).searchLLM (env i).google s⟩).status⟩ := rfl
  have e2 : runFuel env 11 (i + 1) false
      ⟨some .extract, search_node (env i).searchLLM (env i).google s⟩ =
      match extract_node (env (i + 1)).extractLLM
          (search_node (env i).searchLLM (env i).google s) with
      | .error e => ⟨[.extract],
          ⟨some .extract, search_node (env i).searchLLM (env i).google s⟩,
          .errored e⟩
      | .ok s2 =>
          ⟨.extract :: (runFuel env 10 (i + 2) false ⟨some .prioritize, s2⟩).visited,
           (runFuel env 10 (i + 2) false ⟨some .prioritize, s2⟩).final,
           (runFuel env 10 (i + 2) false ⟨some .prioritize, s2⟩).status⟩ := rfl
  rw [e1, e2]
  cases hx : extract_node (env (i + 1)).extractLLM
      (search_node (env i).searchLLM (env i).google s) with
  | error e => exact ⟨by simp, rfl⟩
  | ok s2 =>
      have e3 : runFuel env 10 (i + 2) false ⟨some .prioritize, s2⟩ =
          ⟨[.prioritize], ⟨some .synthesize, author_prioritization_node s2⟩,
           .pausedAt .synthesize⟩ := rfl
      obtain ⟨L, hL⟩ := extract_node_ok_shape hx
      subst hL
      exact ⟨rfl, rfl⟩

/-- Accounting of the plan-approval loop on N `revise` decisions followed by
one `approve`: `plan` re-runs once per revision, `search` never runs inside
the loop, the loop leaves `search` pending, and the revision count grows by
exactly N. -/
theorem planApprovalLoop_revise_approve (env : Nat → NodeOracle) (N : Nat) :
    ∀ (i : Nat) (pend : Option GraphNode) (s : ResearchState) (p : ResearchPlan),
    s.research_plan = some p →
    ((planApprovalLoop env
        (List.replicate N ("revise", none) ++ [("approve", none)]) i
        ⟨pend, s⟩).1.count .plan = N ∧
     (planApprovalLoop env
        (List.replicate N ("revise", none) ++ [("approve", none)]) i
        ⟨pend, s⟩).1.count .search = 0 ∧
     (planApprovalLoop env
        (List.replicate N ("revise", none) ++ [("approve", none)]) i
        ⟨pend, s⟩).2.2.pending = some .search ∧
     ∃ q, (planApprovalLoop env
        (List.replicate N ("revise", none) ++ [("approve", none)]) i
        ⟨pend, s⟩).2.2.state.research_plan = some q ∧
       q.revision_count = p.revision_count + N) := by
  induction N with
  | zero =>
      intro i pend s p hp
      refine ⟨rfl, rfl, rfl, p, hp, rfl⟩
  | succ N ih =>
      intro i pend s p hp
      simp only [List.replicate_succ, List.cons_append, planApprovalLoop]
      rw [if_neg (by decide)]
      simp only [successor, runSched_from_plan]
      have hp2 : ∃ q1, (research_plan_node (env i).planLLM
          { s with human_feedback_research_plan := some (mkFeedback "research_plan" "revise" none none), plan_approved := false }).research_plan =
          some q1 ∧ q1.revision_count = p.revision_count + 1 := by
        refine ⟨_, rfl, ?_⟩
        show (match s.research_plan with
              | some plan => plan.revision_count + 1
              | none => 0) = p.revision_count + 1
        rw [hp]
      obtain ⟨q1, hq1, hq1c⟩ := hp2
      obtain ⟨h1, h2, h3, q, hq, hqc⟩ := ih (i + 1) (some .search)
        (research_plan_node (env i).planLLM
          { s with human_feedback_research_plan := some (mkFeedback "research_plan" "revise" none none), plan_approved := false })
        q1 hq1
      refine ⟨?_, ?_, h3, q, hq, ?_⟩
      · simp [List.count_cons, h1]
      · simp [List.count_cons, h2]
      · rw [hqc, hq1c]; omega

/-- C1: driving a fresh session with N `revise` decisions followed by one
`approve` executes the plan-generation node exactly N + 1 times (the initial
generation plus one re-run per revision), executes the downstream `search`
node exactly once, and leaves the final research plan with
`revision_count = N` — for arbitrary collaborator outcomes.  Modelled from
the spec: the Scheduler follows §4.2 (the LangGraph engine is an external
dependency); the revision loop itself is the websocket driver of
`backend/main.py`. -/
theorem c1_revision_loop_accounting (env : Nat → NodeOracle)
    (topic user : String) (N : Nat) :
    ((driveRevisionCycle env topic user
        (List.replicate N ("revise", none) ++ [("approve", none)])).1.count
      .plan = N + 1) ∧
    ((driveRevisionCycle env topic user
        (List.replicate N ("revise", none) ++ [("approve", none)])).1.count
      .search = 1) ∧
    ((driveRevisionCycle env topic user
        (List.replicate N ("revise", none) ++ [("approve", none)])).2.state.research_plan.map
      (fun p => p.revision_count) = some N) := by
  unfold driveRevisionCycle
  dsimp only []
  rw [runSched_from_input]
  obtain ⟨p0, hp0, hp0c⟩ : ∃ p0,
      (research_plan_node (env (0 + 1)).planLLM
        (input_node { topic := topic, user_id := user })).research_plan =
        some p0 ∧ p0.revision_count = 0 := ⟨_, rfl, rfl⟩
  obtain ⟨h1, h2, h3, q, hq, hqc⟩ := planApprovalLoop_revise_approve env N
    ([GraphNode.input, GraphNode.plan].length) (some GraphNode.search)
    (research_plan_node (env (0 + 1)).planLLM
      (input_node { topic := topic, user_id := user })) p0 hp0
  rcases hcp : (planApprovalLoop env
      (List.replicate N ("revise", none) ++ [("approve", none)])
      ([GraphNode.input, GraphNode.plan].length)
      ⟨some GraphNode.search,
       research_plan_node (env (0 + 1)).planLLM
         (input_node { topic := topic, user_id := user })⟩).2.2
    with ⟨pend2, st2⟩
  rw [hcp] at h3 hq
  simp only [] at h3
  subst h3
  simp only [] at hq
  have hsearch := run_from_search_facts env
    (planApprovalLoop env
      (List.replicate N ("revise", none) ++ [("approve", none)])
      ([GraphNode.input, GraphNode.plan].length)
      ⟨some GraphNode.search,
       research_plan_node (env (0 + 1)).planLLM
         (input_node { topic := topic, user_id := user })⟩).2.1 st2
  have hcount := run_from_interrupt_count env
    (planApprovalLoop env
      (List.replicate N ("revise", none) ++ [("approve", none)])
      ([GraphNode.input, GraphNode.plan].length)
      ⟨some GraphNode.search,
       research_plan_node (env (0 + 1)).planLLM
         (input_node { topic := topic, user_id := user })⟩).2.1
    GraphNode.search st2 (by decide)
  refine ⟨?_, ?_, ?_⟩
  · simp only [List.count_append, h1, hsearch.1]
    simp [List.count_cons]
    omega
  · simp only [List.count_append, h2, hcount]
    simp [List.count_cons]
  · rw [hsearch.2, hq]
    simp [hqc, hp0c]

end LecAgent
